import Mathlib

/-!
Verification of the batch-job spawner (DODAS-TS/batchspawner).

Shallow embedding of `src/remote_slurm_spawner/remote_slurm_spawner.py`
(classes `BatchSpawnerBase`, `BatchSpawnerRegexStates`, `RemoteSlurmSpawner`)
and of `src/batchspawner/remote_slurm.py`.

Modelling conventions:
* Python strings are Lean `String`; helper functions reproduce the exact
  Python string primitives used by the source (`splitlines`, `strip(chars)`,
  `replace`, `split(sep)`, `int(...)` parseability) with structural (fuel)
  recursion so that everything evaluates by `rfl` / `decide`.
* `re.search` is the Python standard library; it is kept abstract as a
  matching oracle carried in the configuration (`research` for truthiness,
  `researchGroups` for the capture groups of a successful match,
  `expand` for `match.expand`), exactly at the call sites of the source.
* Python truthiness of the values actually returned by the state functions
  (`None`, a string, a match object, a bool) is modelled by `PyRes`.
* Exceptions are modelled with `Except String` / explicit `raised`
  constructors; the raised message is carried so that the distinct source
  error paths stay distinguishable.
* External effects (running the query command over a subprocess or a
  paramiko channel, `socket.gethostbyname`, the ssh tunnel subprocess,
  `scancel`) are inputs: each call site takes the outcome of that one
  external call as an explicit argument, mirroring the try/except
  structure of the source around it.
-/

namespace BatchSpawner

/-! ## Python string primitives used by the source -/

/-- A single-quote character (codepoint 39), used to build the quote-laden
paramiko output strings and the quote-removal replace pattern of the source. -/
def squote : Char := Char.ofNat 39

/-- The one-character string holding a single quote. -/
def squoteStr : String := String.mk [squote]

/-- Prefix test: `leadsWith pat l` is true iff `pat` is a prefix of `l`. -/
def leadsWith : List Char → List Char → Bool
  | [], _ => true
  | _ :: _, [] => false
  | p :: ps, c :: cs => p == c && leadsWith ps cs

/-- Substring test on character lists (models `pat in s` /
`re.search` for a plain-literal pattern). -/
def containsSubAux (pat : List Char) : List Char → Bool
  | [] => leadsWith pat []
  | c :: cs => leadsWith pat (c :: cs) || containsSubAux pat cs

/-- Substring test on strings: true iff `pat` occurs in `s`. -/
def containsSub (pat s : String) : Bool :=
  containsSubAux pat.toList s.toList

/-- Fuel-driven worker for Python `str.replace` (all occurrences). -/
def pyReplaceAux (pat repl : List Char) : Nat → List Char → List Char
  | 0, s => s
  | _ + 1, [] => []
  | fuel + 1, c :: cs =>
    if !pat.isEmpty && leadsWith pat (c :: cs) then
      repl ++ pyReplaceAux pat repl fuel (List.drop pat.length (c :: cs))
    else
      c :: pyReplaceAux pat repl fuel cs

/-- Python `s.replace(pat, repl)`; every call in the source has a
non-empty `pat`. -/
def pyReplace (s pat repl : String) : String :=
  String.mk (pyReplaceAux pat.toList repl.toList (s.toList.length + 1) s.toList)

/-- Drop leading characters that belong to the given set. -/
def dropWhileMem (chars : List Char) : List Char → List Char
  | [] => []
  | c :: cs => if chars.contains c then dropWhileMem chars cs else c :: cs

/-- Python `s.strip(chars)`: remove characters of the set from both ends. -/
def pyStrip (chars : List Char) (s : String) : String :=
  String.mk ((dropWhileMem chars (dropWhileMem chars s.toList).reverse).reverse)

/-- Fuel-driven worker for Python `str.split(sep)` with non-empty `sep`. -/
def pySplitAux (sep : List Char) : Nat → List Char → List Char → List (List Char)
  | 0, acc, s => [acc.reverse ++ s]
  | _ + 1, acc, [] => [acc.reverse]
  | fuel + 1, acc, c :: cs =>
    if !sep.isEmpty && leadsWith sep (c :: cs) then
      acc.reverse :: pySplitAux sep fuel [] (List.drop sep.length (c :: cs))
    else
      pySplitAux sep fuel (c :: acc) cs

/-- Python `s.split(sep)`; always returns at least one element, so the
zero-indexing of the source is total. -/
def pySplit (s sep : String) : List String :=
  (pySplitAux sep.toList (s.toList.length + 1) [] s.toList).map String.mk

/-- Fuel-driven worker for Python `str.splitlines` over the line
boundaries that occur in this code base (`\n`, `\r`, `\r\n`): no entry
for a terminal newline, `[]` for the empty string. -/
def pySplitlinesAux : Nat → List Char → List Char → List (List Char)
  | 0, acc, rest => [acc.reverse ++ rest]
  | _ + 1, acc, [] => if acc.isEmpty then [] else [acc.reverse]
  | fuel + 1, acc, c :: cs =>
    if c == '\x0d' then
      match cs with
      | nc :: cs2 =>
        if nc == '\n' then acc.reverse :: pySplitlinesAux fuel [] cs2
        else acc.reverse :: pySplitlinesAux fuel [] cs
      | [] => acc.reverse :: pySplitlinesAux fuel [] []
    else if c == '\n' then
      acc.reverse :: pySplitlinesAux fuel [] cs
    else
      pySplitlinesAux fuel (c :: acc) cs

/-- Python `s.splitlines()`. -/
def pySplitlines (s : String) : List String :=
  (pySplitlinesAux (s.toList.length + 1) [] s.toList).map String.mk

/-- Whitespace characters stripped by Python `int(str)`. -/
def pyWhitespace : List Char := [' ', '\t', '\n', '\x0d', '\x0b', '\x0c']

/-- Does Python `int(s)` succeed (base 10)?  Whitespace is stripped, an
optional single sign is allowed, and the remainder must be a non-empty
run of decimal digits. -/
def pyIntParses (s : String) : Bool :=
  match (pyStrip pyWhitespace s).toList with
  | [] => false
  | c :: cs =>
    let ds := if c == '+' || c == '-' then cs else c :: cs
    !ds.isEmpty && ds.all Char.isDigit

/-- Python `str + int` raises `TypeError` (string concatenation is not
defined between `str` and `int`); the error carries the Python message. -/
def pyStrAddInt (_s : String) (_n : Nat) : Except String String :=
  .error "TypeError: can only concatenate str (not \"int\") to str"

/-! ## Core data model (`BatchSpawnerBase`) -/

/-- Source `class JobStatus(Enum)` (values 0 to 3). -/
inductive JobStatus where
  | NOTFOUND
  | RUNNING
  | PENDING
  | UNKNOWN
deriving DecidableEq

/-- The per-spawner mutable fields the claims are about:
`job_id` (raw output of the submission command) and `job_status`
(raw output of the job status command). -/
structure State where
  job_id : String
  job_status : String
deriving DecidableEq

/-- Truthiness-relevant Python values returned by the three state
functions: `None`, a string (the falsy `job_status` short-circuited by
`and`), a match object (`re.search` success), or a bool. -/
inductive PyRes where
  | pyNone
  | pyStr (s : String)
  | pyMatch
  | pyBool (b : Bool)
deriving DecidableEq

/-- Python truthiness of a `PyRes`: `None` and `""` are falsy, a match
object is truthy, a bool is itself. -/
def PyRes.truthy : PyRes → Bool
  | .pyNone => false
  | .pyStr s => !(s == "")
  | .pyMatch => true
  | .pyBool b => b

/-- Configuration of `BatchSpawnerRegexStates`: the five pattern traits
plus the `re` library kept abstract as oracles.  `research pat text` is
the truthiness of `re.search(pat, text)`; `researchGroups pat text` is
`some m.groups()` when the search produced a match `m` and `none`
otherwise; `expand tmpl text` is `m.expand(tmpl)` for that match. -/
structure Config where
  state_pending_re : String
  state_running_re : String
  state_unknown_re : String
  state_exechost_re : String
  state_exechost_exp : String
  research : String → String → Bool
  researchGroups : String → String → Option (List String)
  expand : String → String → String

/-- Source `BatchSpawnerRegexStates.state_ispending`:
`assert self.state_pending_re` (note the copy-pasted assert
message names `state_running_re`), then
`return self.job_status and re.search(self.state_pending_re, self.job_status)`. -/
def state_ispending (cfg : Config) (job_status : String) : Except String PyRes :=
  if cfg.state_pending_re = "" then
    .error "AssertionError: Misconfigured: define state_running_re"
  else
    .ok (if job_status = "" then .pyStr job_status
         else if cfg.research cfg.state_pending_re job_status then .pyMatch
         else .pyNone)

/-- Source `BatchSpawnerRegexStates.state_isrunning`. -/
def state_isrunning (cfg : Config) (job_status : String) : Except String PyRes :=
  if cfg.state_running_re = "" then
    .error "AssertionError: Misconfigured: define state_running_re"
  else
    .ok (if job_status = "" then .pyStr job_status
         else if cfg.research cfg.state_running_re job_status then .pyMatch
         else .pyNone)

/-- Source `BatchSpawnerRegexStates.state_isunknown`: when `state_unknown_re`
is blank the body falls through and the function returns Python `None`
(the own comment of the source: blank means not set and the function always
returns `None`). -/
def state_isunknown (cfg : Config) (job_status : String) : PyRes :=
  if cfg.state_unknown_re ≠ "" then
    (if job_status = "" then .pyStr job_status
     else if cfg.research cfg.state_unknown_re job_status then .pyMatch
     else .pyNone)
  else .pyNone

/-- The `if/elif` classification chain at the end of
`BatchSpawnerBase.query_job_status` (evaluation order of the source:
`state_isrunning`, then `state_ispending`, then `state_isunknown`). -/
def classify_state (cfg : Config) (job_status : String) : Except String JobStatus :=
  match state_isrunning cfg job_status with
  | .error e => .error e
  | .ok r =>
    if r.truthy then .ok .RUNNING
    else
      match state_ispending cfg job_status with
      | .error e => .error e
      | .ok p =>
        if p.truthy then .ok .PENDING
        else if (state_isunknown cfg job_status).truthy then .ok .UNKNOWN
        else .ok .NOTFOUND

/-- Outcome of the one external call inside
the try/except of `BatchSpawnerBase.query_job_status`:
`run_command` returned stdout (`ok`), raised `RuntimeError` whose
`args[0]` is the stderr text (`err`), or raised anything else (`exc`). -/
inductive QueryOutcome where
  | ok (stdout : String)
  | err (stderr : String)
  | exc
deriving DecidableEq

/-- The status text stored into `self.job_status` for each outcome. -/
def statusTextOf : QueryOutcome → String
  | .ok o => o
  | .err e => e
  | .exc => ""

/-- Source `BatchSpawnerBase.query_job_status`: empty (or unset) `job_id`
short-circuits to `NOTFOUND` with `job_status` cleared; otherwise
`job_status` is overwritten from the command outcome and the chain of
state functions classifies it.  The returned pair is (classification —
`Except` because the state functions can raise their assert — ,
spawner state after the call). -/
def query_job_status (cfg : Config) (st : State) (out : QueryOutcome) :
    Except String JobStatus × State :=
  if st.job_id = "" then
    (.ok .NOTFOUND, { st with job_status := "" })
  else
    let st2 : State := { st with job_status := statusTextOf out }
    (classify_state cfg st2.job_status, st2)

/-- Source `BatchSpawnerBase.clear_state`: resets `job_id` and `job_status`
to the empty string. -/
def clear_state (_st : State) : State :=
  { job_id := "", job_status := "" }

/-- The dictionary entries `BatchSpawnerBase.get_state` adds on top of
the (out-of-scope) framework state: `job_id` and `job_status`, each
present only when non-empty. -/
structure Persisted where
  jobIdEntry : Option String
  jobStatusEntry : Option String
deriving DecidableEq

/-- Source `BatchSpawnerBase.get_state`. -/
def get_state (st : State) : Persisted :=
  { jobIdEntry := if st.job_id = "" then none else some st.job_id
    jobStatusEntry := if st.job_status = "" then none else some st.job_status }

/-- Source `BatchSpawnerBase.load_state`: `state.get("job_id", "")` and
`state.get("job_status", "")` overwrite both fields. -/
def load_state (p : Persisted) (_st : State) : State :=
  { job_id := p.jobIdEntry.getD "", job_status := p.jobStatusEntry.getD "" }

/-- Result of `BatchSpawnerBase.poll`: either an uncaught exception
(assert from a misconfigured pattern) or the returned value (`none` =
Python `None`, `some 1` = the literal `1`) together with the state. -/
inductive PollResult where
  | raised (err : String) (st : State)
  | exited (code : Option Nat) (st : State)
deriving DecidableEq

/-- Source `BatchSpawnerBase.poll`. -/
def poll (cfg : Config) (st : State) (out : QueryOutcome) : PollResult :=
  match query_job_status cfg st out with
  | (.error e, st2) => .raised e st2
  | (.ok s, st2) =>
    if s = .PENDING ∨ s = .RUNNING ∨ s = .UNKNOWN then .exited none st2
    else .exited (some 1) (clear_state st2)

/-! ## `BatchSpawnerBase.start` polling loop and `stop` -/

/-- The `RuntimeError` message raised by both `start` methods when a poll
classifies as `NOTFOUND` (string concatenation as in the source). -/
def jobDisappearedMsg : String :=
  "The Jupyter batch job has disappeared" ++
  " while pending in the queue or died immediately" ++
  " after starting."

/-- Result of the `while True` poll loop of `start` run against a finite
script of query outcomes: the loop broke on `RUNNING`; it raised (the
`NOTFOUND` RuntimeError, or an assert); or the script was exhausted while
the job was still `PENDING`/`UNKNOWN` (the loop would keep waiting). -/
inductive StartLoopResult where
  | running (st : State)
  | failed (err : String) (st : State)
  | exhausted (st : State)
deriving DecidableEq

/-- The `while True` loop of `BatchSpawnerBase.start` (one iteration per
scripted outcome): `RUNNING` breaks, `PENDING`/`UNKNOWN` log and loop,
anything else runs `clear_state` and raises the disappeared-RuntimeError. -/
def start_poll_loop (cfg : Config) : State → List QueryOutcome → StartLoopResult
  | st, [] => .exhausted st
  | st, out :: rest =>
    match query_job_status cfg st out with
    | (.error e, st2) => .failed e st2
    | (.ok .RUNNING, st2) => .running st2
    | (.ok .PENDING, st2) => start_poll_loop cfg st2 rest
    | (.ok .UNKNOWN, st2) => start_poll_loop cfg st2 rest
    | (.ok .NOTFOUND, st2) => .failed jobDisappearedMsg (clear_state st2)

/-- Result of a `stop` call: an uncaught exception, or normal completion
with the number of status queries performed, the number of 1-second
confirmation sleeps awaited, and whether the possibly-failed-to-terminate
warning was logged. -/
inductive StopOutcome where
  | raised (err : String) (st : State)
  | done (queries : Nat) (sleeps : Nat) (warned : Bool) (st : State)
deriving DecidableEq

/-- The `for _ in range(10)` confirmation loop of `BatchSpawnerBase.stop`:
each iteration queries, returns when the status left
`RUNNING`/`UNKNOWN`, otherwise sleeps one second; after the tenth
iteration the warning is logged iff `self.job_id` is truthy. -/
def stop_confirm_loop (cfg : Config) (script : Nat → QueryOutcome) :
    Nat → Nat → Nat → State → StopOutcome
  | 0, q, sl, st => .done q sl (st.job_id != "") st
  | n + 1, q, sl, st =>
    match query_job_status cfg st (script q) with
    | (.error e, st2) => .raised e st2
    | (.ok s, st2) =>
      if s = .RUNNING ∨ s = .UNKNOWN then
        stop_confirm_loop cfg script n (q + 1) (sl + 1) st2
      else
        .done (q + 1) sl false st2

/-- Source `BatchSpawnerBase.stop(now)`: cancel the job (`cancel_batch_job`
runs the cancel command; its outcome is the `cancel` argument and a
failure propagates), return immediately when `now`, otherwise run the
bounded confirmation loop against the scripted query outcomes. -/
def stop (cfg : Config) (st : State) (now : Bool)
    (cancel : Except String Unit) (script : Nat → QueryOutcome) : StopOutcome :=
  match cancel with
  | .error e => .raised e st
  | .ok _ =>
    if now then .done 0 0 false st
    else stop_confirm_loop cfg script 10 0 0 st

/-! ## Job-id parsing -/

/-- Error marker for the `except` path of both `parse_job_id` variants.
(In `RemoteSlurmSpawner.parse_job_id` the logging line itself —
`"..." + e` with `e` an exception object — raises `TypeError` before
`raise e` is reached; either way the caller sees an exception.) -/
def parseFailMsg : String :=
  "SlurmSpawner unable to parse job ID from text"

/-- Source `RemoteSlurmSpawner.parse_job_id` of
`src/remote_slurm_spawner/remote_slurm_spawner.py`: take the last line
(`IndexError` when there is none), strip `"\n"`, strip `"\\n"` (the
character set backslash/`n`), strip `"\\\n"` (backslash/newline), remove
every `"\n"` two-character sequence, every single quote and every `b`
(cleanup of the `str(...)`-wrapped paramiko output), take the token
before `";"`, and require `int(...)` to accept it. -/
def parse_job_id (output : String) : Except String String :=
  match (pySplitlines output).getLast? with
  | none => .error parseFailMsg
  | some lastLine =>
    let s1 := pyStrip ['\n'] lastLine
    let s2 := pyStrip ['\\', 'n'] s1
    let s3 := pyStrip ['\\', '\n'] s2
    let s4 := pyReplace s3 "\\n" ""
    let s5 := pyReplace s4 squoteStr ""
    let s6 := pyReplace s5 "b" ""
    let id := (pySplit s6 ";").headD s6
    if pyIntParses id then .ok id else .error parseFailMsg

/-- Source `RemoteSlurmSpawner.parse_job_id` of `src/batchspawner/remote_slurm.py`:
last line, token before `";"`, `int(...)` must accept it. -/
def parse_job_id_rs (output : String) : Except String String :=
  match (pySplitlines output).getLast? with
  | none => .error parseFailMsg
  | some lastLine =>
    let id := (pySplit lastLine ";").headD lastLine
    if pyIntParses id then .ok id else .error parseFailMsg

/-! ## Execution-host extraction -/

/-- Source `BatchSpawnerRegexStates.state_gethost`: assert the pattern is
configured; on no match log an error and `return` (Python `None`,
modelled `ok none`); otherwise `match.groups()[0]`, or
`match.expand(state_exechost_exp)` when an expand template is set. -/
def state_gethost (cfg : Config) (job_status : String) :
    Except String (Option String) :=
  if cfg.state_exechost_re = "" then
    .error "AssertionError: Misconfigured: define state_exechost_re"
  else
    match cfg.researchGroups cfg.state_exechost_re job_status with
    | none => .ok none
    | some groups =>
      if cfg.state_exechost_exp = "" then
        match groups with
        | [] => .error "IndexError: tuple index out of range"
        | g :: _ => .ok (some g)
      else .ok (some (cfg.expand cfg.state_exechost_exp job_status))

/-- The `TypeError` raised by `socket.gethostbyname(None)`. -/
def gethostbynameNoneMsg : String :=
  "TypeError: str, bytes or bytearray expected, not NoneType"

/-- Source `RemoteSlurmSpawner.state_gethost`: delegate to the base
implementation, then resolve the host through
`socket.gethostbyname` (kept abstract as `resolve`); a `None` host from
the base implementation makes `gethostbyname` raise `TypeError`. -/
def state_gethost_remote (cfg : Config) (job_status : String)
    (resolve : String → Except String String) : Except String String :=
  match state_gethost cfg job_status with
  | .error e => .error e
  | .ok none => .error gethostbynameNoneMsg
  | .ok (some h) => resolve h

/-! ## `RemoteSlurmSpawner`: query over ssh, start with tunnel, stop -/

/-- The post-processing `RemoteSlurmSpawner.query_job_status` applies to
`str(ssh_stdout.readlines())`:
remove every opening bracket and every single quote, then keep the part
before a space-n separator and before a backslash-n sequence. -/
def remote_postprocess (out : String) : String :=
  let s1 := pyReplace out "[" ""
  let s2 := pyReplace s1 squoteStr ""
  let s3 := (pySplit s2 " n").headD s2
  (pySplit s3 "\\n").headD s3

/-- Outcome of the paramiko session inside
the try block of `RemoteSlurmSpawner.query_job_status`: the raw
`str(ssh_stdout.readlines())` text on success, or any exception
(bare `except`: `job_status` becomes the empty string). -/
inductive RQOutcome where
  | ok (raw : String)
  | exc
deriving DecidableEq

/-- Status text stored by the remote query for each session outcome. -/
def remoteStatusTextOf : RQOutcome → String
  | .ok raw => remote_postprocess raw
  | .exc => ""

/-- Source `RemoteSlurmSpawner.query_job_status`: same shape as the base
version, with the ssh session in place of `run_command` and the
post-processed `readlines` text as the stored status. -/
def remote_query_job_status (cfg : Config) (st : State) (out : RQOutcome) :
    Except String JobStatus × State :=
  if st.job_id = "" then
    (.ok .NOTFOUND, { st with job_status := "" })
  else
    let st2 : State := { st with job_status := remoteStatusTextOf out }
    (classify_state cfg st2.job_status, st2)

/-- The `while True` poll loop of `RemoteSlurmSpawner.start`
(textually the same loop as the base `start`, but calling the remote
`query_job_status`). -/
def remote_start_poll_loop (cfg : Config) : State → List RQOutcome → StartLoopResult
  | st, [] => .exhausted st
  | st, out :: rest =>
    match remote_query_job_status cfg st out with
    | (.error e, st2) => .failed e st2
    | (.ok .RUNNING, st2) => .running st2
    | (.ok .PENDING, st2) => remote_start_poll_loop cfg st2 rest
    | (.ok .UNKNOWN, st2) => remote_start_poll_loop cfg st2 rest
    | (.ok .NOTFOUND, st2) => .failed jobDisappearedMsg (clear_state st2)

/-- The ssh port forward built by `RemoteSlurmSpawner.start`
(`-L localPort:remoteHost:remotePort`). -/
structure Tunnel where
  localPort : Nat
  remoteHost : String
  remotePort : Nat
deriving DecidableEq

/-- Result of `RemoteSlurmSpawner.start`: the returned `(ip, port)`
pair together with the tunnel it established; an uncaught exception;
or an execution that never returns (the source loops forever while the
script keeps answering pending/unknown, or while no port is assigned). -/
inductive StartOutcome where
  | ok (ip : String) (port : Nat) (tunnel : Tunnel)
  | raised (err : String) (st : State)
  | pendingForever (st : State)
deriving DecidableEq

/-- Source `RemoteSlurmSpawner.start` from the post-submission check onward:
empty `job_id` raises the submission-failure RuntimeError; the poll
loop runs; on `RUNNING` the execution host is extracted and resolved
(`state_gethost`, then `socket.gethostbyname`); the `while self.port == 0`
wait is modelled by `assignedPort` (the port the side channel of the caller
assigns; 0 means it never arrives and the loop never exits); the ssh
tunnel command `-L port:ip:port` is launched (its failure is logged and
re-raised); finally `self.ip` is set to `"127.0.0.1"` and
`(self.ip, self.port)` is returned. -/
def remote_start (cfg : Config) (st : State) (script : List RQOutcome)
    (resolve : String → Except String String) (assignedPort : Nat)
    (tunnelOutcome : Except String Unit) : StartOutcome :=
  if st.job_id = "" then
    .raised "Jupyter batch job submission failure (no jobid in output)" st
  else
    match remote_start_poll_loop cfg st script with
    | .failed e st2 => .raised e st2
    | .exhausted st2 => .pendingForever st2
    | .running st2 =>
      match state_gethost_remote cfg st2.job_status resolve with
      | .error e => .raised e st2
      | .ok execIp =>
        if assignedPort = 0 then .pendingForever st2
        else
          let tunnel : Tunnel :=
            { localPort := assignedPort, remoteHost := execIp
              remotePort := assignedPort }
          match tunnelOutcome with
          | .error e => .raised e st2
          | .ok _ => .ok "127.0.0.1" assignedPort tunnel

/-- Source `RemoteSlurmSpawner.stop(now)` statement by statement:
`self.log.info("Stopping ssh tunnel on port: " + self.port)` — a `str`
plus the integer `port` trait, which raises `TypeError`; then the tunnel
teardown (`ssh -O exit` subprocess) whose failure is logged and
re-raised (`raise ex`); then `cancel_batch_job` (failure propagates);
then the same immediate-return / bounded confirmation loop as the base
`stop`. -/
def remote_stop (cfg : Config) (st : State) (port : Nat) (now : Bool)
    (teardown : Except String Unit) (cancel : Except String Unit)
    (script : Nat → QueryOutcome) : StopOutcome :=
  match pyStrAddInt "Stopping ssh tunnel on port: " port with
  | .error e => .raised e st
  | .ok _ =>
    match teardown with
    | .error e => .raised e st
    | .ok _ =>
      match cancel with
      | .error e => .raised e st
      | .ok _ =>
        if now then .done 0 0 false st
        else stop_confirm_loop cfg script 10 0 0 st

/-! ## Concrete configurations used to exercise the definitions

The `re` oracles are instantiated with executable stand-ins:
`containsSub` models `re.search` for plain-literal patterns, the
constant-true oracle models a pattern such as `".*"` that matches every
text (including the empty one), and `lastWordGroups` models the Slurm
host pattern, whose single capture group is the final
whitespace-separated token of the status line. -/

/-- Capture groups of the Slurm `state_exechost_re` on a
`"STATE host"`-shaped status line: the last space-separated token. -/
def lastWordGroups (s : String) : Option (List String) :=
  match (pySplit s " ").getLast? with
  | none => none
  | some w => if w = "" then none else some [w]

/-- A configuration with literal-substring patterns (the oracle is
`containsSub`) in the shape of the Slurm defaults. -/
def cfgLit : Config :=
  { state_pending_re := "PENDING"
    state_running_re := "RUNNING"
    state_unknown_re := "slurm_load_jobs error"
    state_exechost_re := "HOSTPAT"
    state_exechost_exp := ""
    research := containsSub
    researchGroups := fun _ s => lastWordGroups s
    expand := fun _ _ => "" }

/-- A configuration whose pending and running patterns (think `".*"`)
match every status text, with no unknown pattern configured. -/
def cfgAll : Config :=
  { state_pending_re := ".*"
    state_running_re := ".*"
    state_unknown_re := ""
    state_exechost_re := ".*"
    state_exechost_exp := ""
    research := fun _ _ => true
    researchGroups := fun _ _ => some [""]
    expand := fun _ _ => "" }

/-- Like `cfgLit`, but the host pattern matches no status text. -/
def cfgNoHost : Config :=
  { state_pending_re := "PENDING"
    state_running_re := "RUNNING"
    state_unknown_re := "slurm_load_jobs error"
    state_exechost_re := "HOSTPAT"
    state_exechost_exp := ""
    research := containsSub
    researchGroups := fun _ _ => none
    expand := fun _ _ => "" }

/-- The paramiko-wrapped submit output `str(b"209\n")`, i.e. the
eight characters b, quote, 2, 0, 9, backslash, n, quote. -/
def paramikoOut : String :=
  String.mk ['b', squote, '2', '0', '9', '\\', 'n', squote]

/-- The paramiko-wrapped query output `str(["RUNNING cn42\n"])`:
opening bracket, quote, RUNNING cn42, backslash, n, quote, closing bracket. -/
def rawRemoteStatus : String :=
  String.mk ['[', squote, 'R', 'U', 'N', 'N', 'I', 'N', 'G', ' ',
             'c', 'n', '4', '2', '\\', 'n', squote, ']']

/-- A name-resolution oracle (`socket.gethostbyname`) returning a fixed
address. -/
def resolveFixed : String → Except String String :=
  fun _ => .ok "10.20.30.40"

/-! ## Helper lemmas -/

/-- `query_job_status` never touches `job_id`. -/
theorem query_job_status_preserves_job_id (cfg : Config) (st : State)
    (out : QueryOutcome) : ((query_job_status cfg st out).2).job_id = st.job_id := by
  unfold query_job_status
  split <;> rfl

/-- With both mandatory patterns configured, the classification chain
never raises an assert. -/
theorem classify_state_ne_error (cfg : Config) (js : String)
    (hp : cfg.state_pending_re ≠ "") (hr : cfg.state_running_re ≠ "")
    (e : String) : classify_state cfg js ≠ Except.error e := by
  unfold classify_state state_isrunning state_ispending
  rw [if_neg hr, if_neg hp]
  intro h
  dsimp only at h
  split_ifs at h

/-- With both mandatory patterns configured, the classification chain
returns a canonical state. -/
theorem classify_state_isOk (cfg : Config) (js : String)
    (hp : cfg.state_pending_re ≠ "") (hr : cfg.state_running_re ≠ "") :
    ∃ s, classify_state cfg js = Except.ok s := by
  rcases hc : classify_state cfg js with e | s
  · exact absurd hc (classify_state_ne_error cfg js hp hr e)
  · exact ⟨s, rfl⟩

/-- With both mandatory patterns configured, `query_job_status` never
raises. -/
theorem query_job_status_isOk (cfg : Config) (st : State) (out : QueryOutcome)
    (hp : cfg.state_pending_re ≠ "") (hr : cfg.state_running_re ≠ "") :
    ∃ s, (query_job_status cfg st out).1 = Except.ok s := by
  unfold query_job_status
  split
  · exact ⟨.NOTFOUND, rfl⟩
  · exact classify_state_isOk cfg _ hp hr

/-! ## Claim theorems -/

/-- C1: in the `start` polling loop, a query whose classification is
neither `PENDING` nor `RUNNING` nor `UNKNOWN` (i.e. `NOTFOUND`) makes the
controller clear both `job_id` and `job_status` to the empty string and
raise the "job disappeared or died immediately" RuntimeError. -/
theorem start_notfound_clears_state_and_fails (cfg : Config) (st : State)
    (out : QueryOutcome) (rest : List QueryOutcome)
    (h : (query_job_status cfg st out).1 = .ok .NOTFOUND) :
    start_poll_loop cfg st (out :: rest) =
      .failed jobDisappearedMsg { job_id := "", job_status := "" } := by
  rcases hq : query_job_status cfg st out with ⟨res, st2⟩
  rw [hq] at h
  simp only at h
  subst h
  simp [start_poll_loop, hq, clear_state]

/-- C1 witness: a first poll answering `"COMPLETED 0:0"` (matching no
pattern) classifies `NOTFOUND`, and the loop fails with cleared state. -/
theorem start_notfound_clears_state_and_fails_witness :
    (query_job_status cfgLit ⟨"209", ""⟩ (.ok "COMPLETED 0:0")).1 =
        .ok .NOTFOUND ∧
      start_poll_loop cfgLit ⟨"209", ""⟩ [.ok "COMPLETED 0:0"] =
        .failed jobDisappearedMsg { job_id := "", job_status := "" } :=
  ⟨rfl, start_notfound_clears_state_and_fails cfgLit ⟨"209", ""⟩
    (.ok "COMPLETED 0:0") [] rfl⟩

/-- C2 counterexample: a stop call in perfectly benign conditions
(immediate mode, tunnel teardown and cancellation both succeeding)
still raises: the claim that `stop` never raises is false. -/
theorem remote_stop_raises_counterexample :
    remote_stop cfgLit ⟨"209", "RUNNING cn42"⟩ 8081 true (.ok ()) (.ok ())
        (fun _ => .exc) =
      .raised "TypeError: can only concatenate str (not \"int\") to str"
        ⟨"209", "RUNNING cn42"⟩ := rfl

/-- C2 amended: `RemoteSlurmSpawner.stop` always raises, for every
state, port, mode and every outcome of the teardown, cancellation and
query commands: its first log line concatenates the integer `port`
trait to a string, which is a `TypeError`, before any teardown work. -/
theorem remote_stop_always_raises (cfg : Config) (st : State) (port : Nat)
    (now : Bool) (teardown cancel : Except String Unit)
    (script : Nat → QueryOutcome) :
    remote_stop cfg st port now teardown cancel script =
      .raised "TypeError: can only concatenate str (not \"int\") to str" st := rfl

/-- C3 counterexample: on the raw submit output
`"Submitted batch job 209\n"` both `parse_job_id` variants raise
(the cleaned last line is not numeric) instead of returning `"209"`. -/
theorem parse_job_id_submit_banner_counterexample :
    parse_job_id "Submitted batch job 209\n" = .error parseFailMsg ∧
      parse_job_id_rs "Submitted batch job 209\n" = .error parseFailMsg :=
  ⟨rfl, rfl⟩

/-- C3 amended: `parse_job_id` maps the `sbatch --parsable` outputs
`"209"` and `"209;cluster"`, and the paramiko-wrapped form (b, quote,
209, backslash, n, quote), to
the clean numeric id `"209"`; output whose extracted token is
non-numeric — including the human-readable banner
`"Submitted batch job 209\n"` — raises, producing a submission error. -/
theorem parse_job_id_ok :
    parse_job_id "209" = .ok "209" ∧
      parse_job_id paramikoOut = .ok "209" ∧
      parse_job_id "209;cluster" = .ok "209" ∧
      parse_job_id_rs "209;cluster\n" = .ok "209" ∧
      parse_job_id "Submitted batch job 209\n" = .error parseFailMsg :=
  ⟨rfl, rfl, rfl, rfl, rfl⟩

/-- C5 counterexample: with no unknown-pattern configured,
`state_isunknown` returns Python `None` — not an actual `False`. -/
theorem state_isunknown_none_counterexample :
    cfgAll.state_unknown_re = "" ∧
      state_isunknown cfgAll "RUNNING 0:0" = .pyNone ∧
      PyRes.pyNone ≠ PyRes.pyBool false :=
  ⟨rfl, rfl, by decide⟩

/-- C5 amended: with no unknown-pattern configured, `state_isunknown`
returns Python `None` (an unset result, as the comment in the source
says) for every status text; `None` is falsy, so classification still
treats the status as not-unknown. -/
theorem state_isunknown_none_when_unconfigured (cfg : Config) (js : String)
    (hu : cfg.state_unknown_re = "") :
    state_isunknown cfg js = .pyNone ∧
      (state_isunknown cfg js).truthy = false := by
  simp [state_isunknown, hu, PyRes.truthy]

/-- C5 witness. -/
theorem state_isunknown_none_when_unconfigured_witness :
    cfgAll.state_unknown_re = "" ∧
      (state_isunknown cfgAll "PENDING 0:0" = .pyNone ∧
        (state_isunknown cfgAll "PENDING 0:0").truthy = false) :=
  ⟨rfl, state_isunknown_none_when_unconfigured cfgAll "PENDING 0:0" rfl⟩

/-- C6 counterexample: on a status text the host pattern does not match,
the base `state_gethost` returns `None` without raising, but the remote
variant feeds that `None` into `socket.gethostbyname`, which raises
`TypeError` — host-extraction failure IS fatal in the remote variant. -/
theorem state_gethost_remote_fatal_counterexample :
    cfgNoHost.researchGroups cfgNoHost.state_exechost_re "COMPLETED 0:0" =
        none ∧
      state_gethost cfgNoHost "COMPLETED 0:0" = .ok none ∧
      state_gethost_remote cfgNoHost "COMPLETED 0:0" (fun h => .ok h) =
        .error gethostbynameNoneMsg :=
  ⟨rfl, rfl, rfl⟩

/-- C6 amended: for every status text the host pattern does not match,
the base variant logs and returns `None` (no exception), while the
remote variant raises the `gethostbyname(None)` `TypeError`, so there
the failure is fatal to `start`. -/
theorem state_gethost_no_match (cfg : Config) (js : String)
    (resolve : String → Except String String)
    (hre : cfg.state_exechost_re ≠ "")
    (hm : cfg.researchGroups cfg.state_exechost_re js = none) :
    state_gethost cfg js = .ok none ∧
      state_gethost_remote cfg js resolve = .error gethostbynameNoneMsg := by
  have h1 : state_gethost cfg js = .ok none := by
    unfold state_gethost
    rw [if_neg hre, hm]
  refine ⟨h1, ?_⟩
  unfold state_gethost_remote
  rw [h1]

/-- C6 witness. -/
theorem state_gethost_no_match_witness :
    cfgNoHost.state_exechost_re ≠ "" ∧
      cfgNoHost.researchGroups cfgNoHost.state_exechost_re "COMPLETED" = none ∧
      (state_gethost cfgNoHost "COMPLETED" = .ok none ∧
        state_gethost_remote cfgNoHost "COMPLETED" resolveFixed =
          .error gethostbynameNoneMsg) :=
  ⟨by decide, rfl,
    state_gethost_no_match cfgNoHost "COMPLETED" resolveFixed (by decide) rfl⟩

/-- C4 counterexample: with user-configured patterns (think `".*"`)
that match every text — both the pending and the running one match the
empty status text — the empty status text classifies as `NOTFOUND`,
not `RUNNING`: the universal statement of the claim is false. -/
theorem classify_both_match_counterexample :
    cfgAll.research cfgAll.state_pending_re "" = true ∧
      cfgAll.research cfgAll.state_running_re "" = true ∧
      classify_state cfgAll "" = .ok .NOTFOUND ∧
      JobStatus.NOTFOUND ≠ JobStatus.RUNNING :=
  ⟨rfl, rfl, rfl, by decide⟩

/-- C4 amended: for every NON-EMPTY status text, classification follows
the precedence Running > Pending > Unknown > NotFound; in particular a
non-empty text matching both the pending and the running pattern
classifies as `RUNNING`.  (The empty status text always classifies as
`NOTFOUND`, even when the patterns match it — the counterexample.) -/
theorem classify_precedence (cfg : Config) (js : String)
    (hp : cfg.state_pending_re ≠ "") (hr : cfg.state_running_re ≠ "")
    (hjs : js ≠ "") :
    (cfg.research cfg.state_running_re js = true →
      classify_state cfg js = .ok .RUNNING) ∧
    (cfg.research cfg.state_running_re js = false →
      cfg.research cfg.state_pending_re js = true →
      classify_state cfg js = .ok .PENDING) ∧
    (cfg.research cfg.state_running_re js = false →
      cfg.research cfg.state_pending_re js = false →
      (state_isunknown cfg js).truthy = true →
      classify_state cfg js = .ok .UNKNOWN) ∧
    (cfg.research cfg.state_running_re js = false →
      cfg.research cfg.state_pending_re js = false →
      (state_isunknown cfg js).truthy = false →
      classify_state cfg js = .ok .NOTFOUND) := by
  have hrun : state_isrunning cfg js =
      .ok (if cfg.research cfg.state_running_re js then .pyMatch
           else .pyNone) := by
    unfold state_isrunning
    rw [if_neg hr, if_neg hjs]
  have hpend : state_ispending cfg js =
      .ok (if cfg.research cfg.state_pending_re js then .pyMatch
           else .pyNone) := by
    unfold state_ispending
    rw [if_neg hp, if_neg hjs]
  have tM : PyRes.truthy .pyMatch = true := rfl
  have tN : PyRes.truthy .pyNone = false := rfl
  refine ⟨?_, ?_, ?_, ?_⟩
  · intro h1
    simp [classify_state, hrun, h1, tM]
  · intro h1 h2
    simp [classify_state, hrun, hpend, h1, h2, tM, tN]
  · intro h1 h2 h3
    simp [classify_state, hrun, hpend, h1, h2, h3, tN]
  · intro h1 h2 h3
    simp [classify_state, hrun, hpend, h1, h2, h3, tN]

/-- C4 witness: `"PENDING RUNNING"` matches both literal patterns and
classifies as `RUNNING`. -/
theorem classify_precedence_witness :
    cfgLit.state_pending_re ≠ "" ∧ cfgLit.state_running_re ≠ "" ∧
      ("PENDING RUNNING" : String) ≠ "" ∧
      cfgLit.research cfgLit.state_running_re "PENDING RUNNING" = true ∧
      cfgLit.research cfgLit.state_pending_re "PENDING RUNNING" = true ∧
      classify_state cfgLit "PENDING RUNNING" = .ok .RUNNING :=
  ⟨by decide, by decide, by decide, rfl, rfl,
    (classify_precedence cfgLit "PENDING RUNNING" (by decide) (by decide)
      (by decide)).1 rfl⟩

/-- C9: `get_state` serializes exactly `job_id` and `job_status`
(each key present only when non-empty), `load_state` restores exactly
those two fields, and a fresh controller loaded from the serialized
state has `poll` behavior identical to the original, for every state
and every scripted query outcome. -/
theorem get_state_load_state_roundtrip (s fresh : State) (cfg : Config)
    (out : QueryOutcome) :
    load_state (get_state s) fresh = s ∧
      poll cfg (load_state (get_state s) fresh) out = poll cfg s out := by
  cases s with
  | mk ji js =>
    have h : load_state (get_state ⟨ji, js⟩) fresh = ⟨ji, js⟩ := by
      simp only [get_state, load_state, State.mk.injEq]
      constructor
      · by_cases hji : ji = "" <;> simp [hji]
      · by_cases hjs : js = "" <;> simp [hjs]
    exact ⟨h, by rw [h]⟩

/-- C10: with both mandatory patterns configured, the empty stored
status text makes `state_ispending` and `state_isrunning` return the
falsy empty string, `state_isunknown` return a falsy value, and
classification yield `NOTFOUND` — for EVERY matching oracle, hence even
for patterns that match the empty string. -/
theorem empty_status_all_falsy_notfound (cfg : Config)
    (hp : cfg.state_pending_re ≠ "") (hr : cfg.state_running_re ≠ "") :
    state_ispending cfg "" = .ok (.pyStr "") ∧
      state_isrunning cfg "" = .ok (.pyStr "") ∧
      PyRes.truthy (.pyStr "") = false ∧
      (state_isunknown cfg "").truthy = false ∧
      classify_state cfg "" = .ok .NOTFOUND := by
  have hpend : state_ispending cfg "" = .ok (.pyStr "") := by
    unfold state_ispending
    rw [if_neg hp]
    simp
  have hrun : state_isrunning cfg "" = .ok (.pyStr "") := by
    unfold state_isrunning
    rw [if_neg hr]
    simp
  have hunk : (state_isunknown cfg "").truthy = false := by
    unfold state_isunknown
    split_ifs with h1 h2 h3
    · rfl
    · exact absurd rfl h2
    · exact absurd rfl h2
    · rfl
  have tS : PyRes.truthy (.pyStr "") = false := by decide
  refine ⟨hpend, hrun, by decide, hunk, ?_⟩
  simp [classify_state, hrun, hpend, hunk, tS]

/-- C10 witness: even with patterns matching every text (including the
empty one), the empty status text classifies as `NOTFOUND`. -/
theorem empty_status_all_falsy_notfound_witness :
    cfgAll.state_pending_re ≠ "" ∧ cfgAll.state_running_re ≠ "" ∧
      cfgAll.research cfgAll.state_pending_re "" = true ∧
      classify_state cfgAll "" = .ok .NOTFOUND :=
  ⟨by decide, by decide, rfl,
    (empty_status_all_falsy_notfound cfgAll (by decide) (by decide)).2.2.2.2⟩

/-- A scripted query outcome whose classification keeps the stop
confirmation loop waiting (`RUNNING` or `UNKNOWN`). -/
def runningOrUnknown (cfg : Config) (out : QueryOutcome) : Prop :=
  classify_state cfg (statusTextOf out) = .ok .RUNNING ∨
    classify_state cfg (statusTextOf out) = .ok .UNKNOWN

/-- The stop confirmation loop performs at most `n` more queries and
`n` more sleeps and always completes (never raises) when the mandatory
patterns are configured. -/
theorem stop_confirm_loop_bounded (cfg : Config) (script : Nat → QueryOutcome)
    (hp : cfg.state_pending_re ≠ "") (hr : cfg.state_running_re ≠ "") :
    ∀ n q sl st, ∃ q2 sl2 w st2,
      stop_confirm_loop cfg script n q sl st = .done q2 sl2 w st2 ∧
        q2 ≤ q + n ∧ sl2 ≤ sl + n := by
  intro n
  induction n with
  | zero =>
    intro q sl st
    exact ⟨q, sl, (st.job_id != ""), st, rfl, by omega, by omega⟩
  | succ n ih =>
    intro q sl st
    rcases hq : query_job_status cfg st (script q) with ⟨res, st2⟩
    rcases query_job_status_isOk cfg st (script q) hp hr with ⟨s, hs⟩
    rw [hq] at hs
    simp only at hs
    subst hs
    by_cases hcond : s = JobStatus.RUNNING ∨ s = JobStatus.UNKNOWN
    · have hstep : stop_confirm_loop cfg script (n + 1) q sl st =
          stop_confirm_loop cfg script n (q + 1) (sl + 1) st2 := by
        simp only [stop_confirm_loop, hq]
        rw [if_pos hcond]
      rcases ih (q + 1) (sl + 1) st2 with ⟨q2, sl2, w, st3, heq, hq2, hsl2⟩
      exact ⟨q2, sl2, w, st3, by rw [hstep, heq], by omega, by omega⟩
    · have hstep : stop_confirm_loop cfg script (n + 1) q sl st =
          .done (q + 1) sl false st2 := by
        simp only [stop_confirm_loop, hq]
        rw [if_neg hcond]
      exact ⟨q + 1, sl, false, st2, hstep, by omega, by omega⟩

/-- When every scripted query keeps answering `RUNNING`/`UNKNOWN`, the
confirmation loop runs all its iterations, sleeps after each one, and
ends logging the possibly-failed-to-terminate warning (the job id is
still set). -/
theorem stop_confirm_loop_all_running (cfg : Config)
    (script : Nat → QueryOutcome) :
    ∀ n q sl st, st.job_id ≠ "" →
      (∀ i, i < q + n → runningOrUnknown cfg (script i)) →
      ∃ st2, stop_confirm_loop cfg script n q sl st =
        .done (q + n) (sl + n) true st2 := by
  intro n
  induction n with
  | zero =>
    intro q sl st hid _
    refine ⟨st, ?_⟩
    have hb : (st.job_id != "") = true := by
      simp [bne_iff_ne, hid]
    simp [stop_confirm_loop, hb]
  | succ n ih =>
    intro q sl st hid hall
    have hq0 : runningOrUnknown cfg (script q) := hall q (by omega)
    have hqeq : query_job_status cfg st (script q) =
        (classify_state cfg (statusTextOf (script q)),
          { st with job_status := statusTextOf (script q) }) := by
      unfold query_job_status
      rw [if_neg hid]
    have hs2 : ∃ s, classify_state cfg (statusTextOf (script q)) = .ok s ∧
        (s = JobStatus.RUNNING ∨ s = JobStatus.UNKNOWN) := by
      rcases hq0 with hx | hx
      · exact ⟨_, hx, Or.inl rfl⟩
      · exact ⟨_, hx, Or.inr rfl⟩
    rcases hs2 with ⟨s, hs, hsor⟩
    have hstep : stop_confirm_loop cfg script (n + 1) q sl st =
        stop_confirm_loop cfg script n (q + 1) (sl + 1)
          { st with job_status := statusTextOf (script q) } := by
      simp only [stop_confirm_loop, hqeq, hs]
      rw [if_pos hsor]
    have hid2 : ({ st with job_status := statusTextOf (script q) } : State).job_id ≠ "" := hid
    rcases ih (q + 1) (sl + 1) _ hid2 (fun i hi => hall i (by omega)) with ⟨st3, heq⟩
    refine ⟨st3, ?_⟩
    rw [hstep, heq]
    have e1 : q + 1 + n = q + (n + 1) := by omega
    have e2 : sl + 1 + n = sl + (n + 1) := by omega
    rw [e1, e2]

/-- C7: `stop(now=True)` returns right after the cancel command with no
confirmation query; `stop(now=False)` performs at most 10 queries with
at most 10 one-second sleeps; and when the job never leaves
`RUNNING`/`UNKNOWN` it runs all 10, logs the warning, and still
completes normally instead of failing. -/
theorem stop_immediate_and_bounded_confirmation (cfg : Config) (st : State)
    (script : Nat → QueryOutcome)
    (hp : cfg.state_pending_re ≠ "") (hr : cfg.state_running_re ≠ "")
    (hid : st.job_id ≠ "") :
    stop cfg st true (.ok ()) script = .done 0 0 false st ∧
      (∃ q sl w st2, stop cfg st false (.ok ()) script = .done q sl w st2 ∧
        q ≤ 10 ∧ sl ≤ 10) ∧
      ((∀ i, i < 10 → runningOrUnknown cfg (script i)) →
        ∃ st2, stop cfg st false (.ok ()) script = .done 10 10 true st2) := by
  refine ⟨rfl, ?_, ?_⟩
  · rcases stop_confirm_loop_bounded cfg script hp hr 10 0 0 st with
      ⟨q2, sl2, w, st2, heq, h1, h2⟩
    exact ⟨q2, sl2, w, st2, by simp [stop, heq], by omega, by omega⟩
  · intro hall
    rcases stop_confirm_loop_all_running cfg script 10 0 0 st hid
        (fun i hi => hall i (by omega)) with ⟨st2, heq⟩
    refine ⟨st2, ?_⟩
    simp only [stop, heq]
    norm_num

/-- C7 witness: a job that keeps reporting `RUNNING` — immediate stop
does zero queries; non-immediate stop does exactly 10 queries and 10
sleeps and warns. -/
theorem stop_immediate_and_bounded_confirmation_witness :
    cfgLit.state_pending_re ≠ "" ∧ cfgLit.state_running_re ≠ "" ∧
      (State.mk "209" "RUNNING cn42").job_id ≠ "" ∧
      stop cfgLit ⟨"209", "RUNNING cn42"⟩ true (.ok ())
          (fun _ => .ok "RUNNING cn42") =
        .done 0 0 false ⟨"209", "RUNNING cn42"⟩ ∧
      stop cfgLit ⟨"209", "RUNNING cn42"⟩ false (.ok ())
          (fun _ => .ok "RUNNING cn42") =
        .done 10 10 true ⟨"209", "RUNNING cn42"⟩ :=
  ⟨by decide, by decide, by decide,
    (stop_immediate_and_bounded_confirmation cfgLit ⟨"209", "RUNNING cn42"⟩
      (fun _ => .ok "RUNNING cn42") (by decide) (by decide) (by decide)).1,
    rfl⟩

/-- C8: every successful remote `start` returns the local loopback
address paired with the port of the job, and the tunnel it established
forwards that same local port to the identical remote port
(`-L port:ip:port`): the locally exposed port and the remote port are
identical. -/
theorem remote_start_endpoint_loopback (cfg : Config) (st : State)
    (script : List RQOutcome) (resolve : String → Except String String)
    (assignedPort : Nat) (tun : Except String Unit) (ip : String)
    (port : Nat) (t : Tunnel)
    (h : remote_start cfg st script resolve assignedPort tun =
      .ok ip port t) :
    ip = "127.0.0.1" ∧ port = t.remotePort ∧ t.localPort = t.remotePort := by
  unfold remote_start at h
  by_cases hid : st.job_id = ""
  · rw [if_pos hid] at h
    exact absurd h (by simp)
  · rw [if_neg hid] at h
    rcases hloop : remote_start_poll_loop cfg st script with st2 | ⟨e, st2⟩ | st2 <;>
      simp only [hloop] at h
    · rcases hhost : state_gethost_remote cfg st2.job_status resolve with e | execIp <;>
        simp only [hhost] at h
      · exact absurd h (by simp)
      · by_cases hport : assignedPort = 0
        · rw [if_pos hport] at h
          exact absurd h (by simp)
        · rw [if_neg hport] at h
          rcases htun : tun with e | u <;> simp only [htun] at h
          · exact absurd h (by simp)
          · rw [StartOutcome.ok.injEq] at h
            rcases h with ⟨hip, hports, ht⟩
            subst hip
            subst hports
            subst ht
            exact ⟨rfl, rfl, rfl⟩
    · exact absurd h (by simp)
    · exact absurd h (by simp)

/-- C8 witness: a concrete successful remote start — one poll answering
a paramiko-wrapped `RUNNING` line, host `cn42` resolved to
`10.20.30.40`, port 8080 — returns `("127.0.0.1", 8080)` with a tunnel
forwarding local port 8080 to remote port 8080. -/
theorem remote_start_endpoint_loopback_witness :
    remote_start cfgLit ⟨"209", ""⟩ [.ok rawRemoteStatus] resolveFixed 8080
        (.ok ()) =
      .ok "127.0.0.1" 8080 ⟨8080, "10.20.30.40", 8080⟩ ∧
      ("127.0.0.1" = "127.0.0.1" ∧
        8080 = (Tunnel.mk 8080 "10.20.30.40" 8080).remotePort ∧
        (Tunnel.mk 8080 "10.20.30.40" 8080).localPort =
          (Tunnel.mk 8080 "10.20.30.40" 8080).remotePort) :=
  ⟨rfl,
    remote_start_endpoint_loopback cfgLit ⟨"209", ""⟩ [.ok rawRemoteStatus]
      resolveFixed 8080 (.ok ()) "127.0.0.1" 8080 ⟨8080, "10.20.30.40", 8080⟩
      rfl⟩

end BatchSpawner
